import Mathlib

/-!
Shallow embedding of the eburon-pod chat and media code.

The embedding covers:
* `sendMessageToChat` and `createChat` from the Gemini service module;
* the chatbot component: `initChat`, `handleSend`, `handleClearHistory`,
  with React state (`messages`, `input`, `isLoading`, `chat`) made explicit
  and every external effect (Supabase reads/writes, the gateway call)
  passed in as an outcome parameter and recorded as data;
* the Supabase media service: `saveImage`, `getUserImages`, `deleteImage`,
  with the storage and database calls passed in as outcome parameters and
  the attempted operations recorded as an event trace.

Fallible TypeScript code that throws is embedded as `Except String`;
Supabase calls that resolve with an `error` field are embedded as outcome
parameters (`StoreOutcome`, `ReadOutcome`, `Option String`).
-/

namespace EburonPod

/-- A chat message as in the component's `Message` interface:
`sender: 'user' | 'bot'` and the text. -/
inductive Sender
  | user
  | bot
deriving DecidableEq, Repr

/-- The `Message` interface of the chatbot component. -/
structure Message where
  sender : Sender
  text : String
deriving DecidableEq, Repr

/-- JavaScript `String.prototype.trim`: strip leading and trailing
whitespace (structural recursion over the character list, so that concrete
inputs evaluate). -/
def strTrim (s : String) : String :=
  ⟨((s.data.dropWhile Char.isWhitespace).reverse.dropWhile Char.isWhitespace).reverse⟩

/-- Whether `pat` occurs as a contiguous run inside the second list. -/
def listHasInfix (pat : List Char) : List Char → Bool
  | [] => pat.isEmpty
  | b :: rest => pat.isPrefixOf (b :: rest) || listHasInfix pat rest

/-- JavaScript `String.prototype.includes`: case-sensitive contiguous
substring test, used by `initChat` on the Supabase error message. -/
def strIncludes (s pat : String) : Bool :=
  listHasInfix pat.data s.data

/-! ### Gemini service (`createChat`, `sendMessageToChat`) -/

/-- Outcome of the underlying gateway call `chat.sendMessage({ message })`:
either it resolves with response text or it throws. -/
inductive GatewayOutcome
  | ok (text : String)
  | fail (err : String)
deriving DecidableEq, Repr

/-- The fixed string `sendMessageToChat` returns from its catch branch when
the gateway call throws. -/
def gatewayErrorText : String := "Sorry, I encountered an error. Please try again."

/-- `sendMessageToChat(chat, message)`: awaits the gateway call inside a
try/catch; a thrown error is logged and mapped to `gatewayErrorText`, so the
returned promise resolves in both cases (`Except.error` is never produced). -/
def sendMessageToChat : GatewayOutcome → Except String String
  | .ok t => .ok t
  | .fail _ => .ok gatewayErrorText

/-- One entry of the history array handed to `ai.chats.create`. -/
structure HistContent where
  role : String
  text : String
deriving DecidableEq, Repr

/-- The remote conversation context built by `ai.chats.create`: the config's
system instruction and the seed history. -/
structure ChatCtx where
  systemInstruction : Option String
  history : List HistContent
deriving DecidableEq, Repr

/-- `createChat(systemInstruction?, history?)`: the config carries the system
instruction only when the string is truthy (nonempty), and an absent history
argument seeds no turns. -/
def createChat (systemInstruction : String) (history : Option (List HistContent)) : ChatCtx :=
  { systemInstruction := if systemInstruction = "" then none else some systemInstruction,
    history := history.getD [] }

/-! ### Chatbot component state -/

/-- The chatbot component's React state: `messages`, `input`, `isLoading`
and the `chat` context (null until `createChat` has run). -/
structure ChatState where
  messages : List Message
  input : String
  isLoading : Bool
  chat : Option ChatCtx
deriving DecidableEq, Repr

/-- A row of the `chat_history` table as `handleSend` inserts it. -/
structure ChatRow where
  user_id : String
  sender : Sender
  text : String
deriving DecidableEq, Repr

/-- What a `handleSend` call produces: the new component state and the list
of `chat_history` insert calls it issued (each with its row array). -/
structure SendResult where
  state : ChatState
  insertAttempts : List (List ChatRow)
deriving DecidableEq, Repr

/-- The fallback text of `handleSend`'s own catch branch, reached only when
`sendMessageToChat` rejects. -/
def handleSendCatchText : String := "Sorry, I couldn't get a response. Please try again."

/-- `handleSend`: guard `(!input.trim() || !chat || isLoading || !user)`
returns unchanged; otherwise the user turn is appended, the input cleared,
and the awaited `sendMessageToChat` result decides between the success path
(append bot turn, insert both rows; an insert error is only logged, hence
the ignored `_insertError`) and the catch path (append the fallback turn,
no insert). `isLoading` is reset in the `finally`. -/
def handleSend (st : ChatState) (uid : Option String) (gw : GatewayOutcome)
    (_insertError : Option String) : SendResult :=
  match uid with
  | none => ⟨st, []⟩
  | some userId =>
    if strTrim st.input = "" ∨ st.chat = none ∨ st.isLoading then ⟨st, []⟩
    else
      let currentInput := st.input
      let st1 : ChatState :=
        { st with messages := st.messages ++ [⟨.user, currentInput⟩],
                  input := "", isLoading := true }
      match sendMessageToChat gw with
      | .ok botResponseText =>
          ⟨{ st1 with messages := st1.messages ++ [⟨.bot, botResponseText⟩],
                      isLoading := false },
           [[⟨userId, .user, currentInput⟩, ⟨userId, .bot, botResponseText⟩]]⟩
      | .error _ =>
          ⟨{ st1 with messages := st1.messages ++ [⟨.bot, handleSendCatchText⟩],
                      isLoading := false },
           []⟩

/-! ### Session initialisation (`initChat`) -/

/-- Outcome of the `chat_history` select ordered by `created_at` ascending:
the rows, or the Supabase error message. -/
inductive ReadOutcome
  | ok (rows : List Message)
  | err (message : String)
deriving DecidableEq, Repr

/-- The notice shown when the error message matches the table-missing check. -/
def setupIncompleteText : String :=
  "DATABASE SETUP INCOMPLETE:\n\nThe 'chat_history' table is missing from your Supabase database. Please execute the required SQL script provided in the documentation in your Supabase project's SQL Editor to create the necessary tables."

/-- The generic degraded notice carrying the Supabase error message. -/
def genericLoadErrorText (message : String) : String :=
  "Hello! I couldn't load previous messages due to an error: " ++ message

/-- The greeting shown on success with no prior rows. -/
def greetingText : String := "Hello! This is EBURON. How can I help you today?"

/-- The `role` field used when formatting history for the Gemini API. -/
def senderRole : Sender → String
  | .user => "user"
  | .bot => "model"

/-- `initChat(currentUserId)`: formats whatever rows came back (none on
error) into Gemini history and creates the chat; then branches on the read
outcome: an error whose message contains "does not exist" or
"Could not find the table" yields the setup-incomplete notice, any other
error the generic notice with the message, nonempty data the data itself,
and empty data the greeting. `isLoading` ends false, `input` is untouched
from its initial empty string. -/
def initChat (knowledge : String) (readO : ReadOutcome) : ChatState :=
  let rows := match readO with | .ok rows => rows | .err _ => []
  let formattedHistory := rows.map fun msg => HistContent.mk (senderRole msg.sender) msg.text
  let chat := some (createChat knowledge (some formattedHistory))
  match readO with
  | .err m =>
    if strIncludes m "does not exist" || strIncludes m "Could not find the table" then
      { messages := [⟨.bot, setupIncompleteText⟩], input := "", isLoading := false, chat }
    else
      { messages := [⟨.bot, genericLoadErrorText m⟩], input := "", isLoading := false, chat }
  | .ok rows =>
    if rows.isEmpty then
      { messages := [⟨.bot, greetingText⟩], input := "", isLoading := false, chat }
    else
      { messages := rows, input := "", isLoading := false, chat }

/-! ### Clearing history (`handleClearHistory`) -/

/-- What a `handleClearHistory` call produces: the new state, whether the
failure alert was shown, and whether the durable delete was attempted. -/
structure ClearResult where
  state : ChatState
  alerted : Bool
  deleteAttempted : Bool
deriving DecidableEq, Repr

/-- The single turn left after a successful clear. -/
def clearedText : String := "History cleared. How can I help you?"

/-- `handleClearHistory`: without a user nothing happens; with one, the
`chat_history` delete for the user is awaited first — on error an alert is
shown and the handler returns with the state untouched; on success the
transcript is replaced by the fixed cleared message and a fresh chat is
created with `createChat(knowledge)` (no history argument). -/
def handleClearHistory (st : ChatState) (uid : Option String)
    (deleteError : Option String) (knowledge : String) : ClearResult :=
  match uid with
  | none => ⟨st, false, false⟩
  | some _ =>
    match deleteError with
    | some _ => ⟨st, true, true⟩
    | none =>
      ⟨{ st with messages := [⟨.bot, clearedText⟩],
                 chat := some (createChat knowledge none) },
       false, true⟩

/-! ### Supabase media service (`saveImage`, `getUserImages`, `deleteImage`) -/

/-- Outcome of one Supabase storage or database call: `ok`, or the error
message of the `error` field. -/
inductive StoreOutcome
  | ok
  | err (message : String)
deriving DecidableEq, Repr

/-- One attempted storage/database operation of the media service, recorded
in order. -/
inductive MediaEvent
  | storageUpload (path : String)
  | dbInsert (userId prompt path : String)
  | storageRemove (paths : List String)
  | dbDelete (userId storagePath : String)
deriving DecidableEq, Repr

/-- What a media-service call produces: the thrown error or success, and
the trace of operations it attempted, in order. -/
structure MediaResult where
  result : Except String Unit
  events : List MediaEvent
deriving Repr

/-- Whether an event is a storage `remove` call. -/
def isStorageRemove : MediaEvent → Bool
  | .storageRemove _ => true
  | _ => false

/-- Whether an event is a `user_images` row delete. -/
def isDbDelete : MediaEvent → Bool
  | .dbDelete _ _ => true
  | _ => false

/-- `saveImage(userId, prompt, imageBase64)`: builds the path
`userId/isoNow.png`, uploads the blob (an upload error throws the upload
message and nothing else runs), then inserts the metadata row; an insert
error triggers one compensating `remove([filePath])` whose own result is
discarded (`_removeOutcome`), and the insert message is thrown. -/
def saveImage (userId prompt isoNow : String)
    (upload insertO : StoreOutcome) (_removeOutcome : StoreOutcome) : MediaResult :=
  let filePath := userId ++ "/" ++ isoNow ++ ".png"
  match upload with
  | .err m =>
      ⟨.error ("Failed to upload image to storage: " ++ m),
       [.storageUpload filePath]⟩
  | .ok =>
    match insertO with
    | .err m =>
        ⟨.error ("Failed to save image metadata: " ++ m),
         [.storageUpload filePath, .dbInsert userId prompt filePath,
          .storageRemove [filePath]]⟩
    | .ok =>
        ⟨.ok (), [.storageUpload filePath, .dbInsert userId prompt filePath]⟩

/-- A row of the `user_images` table as `getUserImages` selects it. -/
structure ImageRow where
  id : Nat
  prompt : String
  storage_path : String
  created_at : String
deriving DecidableEq, Repr

/-- An element of `getUserImages`'s result: the row plus the signed `url`. -/
structure StoredImage where
  id : Nat
  prompt : String
  storage_path : String
  created_at : String
  url : String
deriving DecidableEq, Repr

/-- `getUserImages(userId)`: the select ordered by `created_at` descending
either throws the fetch error or yields rows; no rows yield `[]`; otherwise
each row gets `createSignedUrl(row.storage_path, 3600)` — modelled by
`signedUrl`, `none` standing for an error or missing data — and a failed
signed-URL call leaves that row in place with `url = ""`. -/
def getUserImages (dbResult : Except String (List ImageRow))
    (signedUrl : String → Option String) : Except String (List StoredImage) :=
  match dbResult with
  | .error m => .error ("Failed to fetch image records: " ++ m)
  | .ok imagesData =>
    if imagesData.isEmpty then .ok []
    else .ok (imagesData.map fun image =>
      match signedUrl image.storage_path with
      | some u => ⟨image.id, image.prompt, image.storage_path, image.created_at, u⟩
      | none => ⟨image.id, image.prompt, image.storage_path, image.created_at, ""⟩)

/-- `deleteImage(userId, storagePath)`: the storage `remove([storagePath])`
runs first (an error throws the storage message and the row delete never
runs); then the `user_images` delete scoped to `user_id` and `storage_path`,
whose error throws the record message. -/
def deleteImage (userId storagePath : String)
    (storageO dbO : StoreOutcome) : MediaResult :=
  match storageO with
  | .err m =>
      ⟨.error ("Failed to delete image from storage: " ++ m),
       [.storageRemove [storagePath]]⟩
  | .ok =>
    match dbO with
    | .err m =>
        ⟨.error ("Failed to delete image record: " ++ m),
         [.storageRemove [storagePath], .dbDelete userId storagePath]⟩
    | .ok =>
        ⟨.ok (), [.storageRemove [storagePath], .dbDelete userId storagePath]⟩

/-! ### Iterated sends -/

/-- The turns a list of (input, reply) exchanges appends: user then bot,
per exchange. -/
def pairTurns : List (String × String) → List Message
  | [] => []
  | p :: ps => Message.mk .user p.1 :: Message.mk .bot p.2 :: pairTurns ps

/-- Serial `handleSend` calls: each sets the input box to the next input and
runs `handleSend` with a successful gateway reply. -/
def runSends (uid : String) (st : ChatState) : List (String × String) → ChatState
  | [] => st
  | p :: ps =>
      runSends uid ((handleSend { st with input := p.1 } (some uid) (.ok p.2) none).state) ps

/-- A concrete freshly initialised session: empty knowledge base, successful
read with zero prior rows. -/
def demoInit : ChatState := initChat "" (ReadOutcome.ok [])

/-- `demoInit` with text typed into the input box. -/
def readyState : ChatState := { demoInit with input := "hello" }

/-- A concrete state with a call outstanding (`isLoading` set). -/
def busyState : ChatState :=
  { messages := [], input := "hi", isLoading := true, chat := some (createChat "" none) }

/-! ### Helper lemmas -/

/-- One guard-passing `handleSend` with a successful gateway reply appends
the user turn and the bot turn, clears the input and ends not loading. -/
theorem handleSend_ok_step (st : ChatState) (userId inp reply : String) (ins : Option String)
    (hinp : strTrim inp ≠ "") (hchat : st.chat ≠ none) (hload : st.isLoading = false) :
    (handleSend { st with input := inp } (some userId) (.ok reply) ins).state =
      { st with messages := st.messages ++ [⟨.user, inp⟩, ⟨.bot, reply⟩],
                input := "", isLoading := false } := by
  obtain ⟨ms, inp0, ld, ch⟩ := st
  simp_all [handleSend, sendMessageToChat]

/-- Serial guard-passing sends with successful replies append exactly the
interleaved user/bot turns. -/
theorem runSends_messages (uid : String) (ps : List (String × String)) :
    ∀ st : ChatState, st.chat ≠ none → st.isLoading = false →
      (∀ p ∈ ps, strTrim p.1 ≠ "") →
      (runSends uid st ps).messages = st.messages ++ pairTurns ps := by
  induction ps with
  | nil => intro st _ _ _; simp [runSends, pairTurns]
  | cons p ps ih =>
    intro st hchat hload hps
    rw [runSends, handleSend_ok_step st uid p.1 p.2 none (hps p (by simp)) hchat hload,
      ih { st with messages := st.messages ++ [⟨.user, p.1⟩, ⟨.bot, p.2⟩],
                   input := "", isLoading := false }
        hchat rfl (fun q hq => hps q (by simp [hq]))]
    simp [pairTurns]

/-- The interleaved turn list has two turns per exchange. -/
theorem pairTurns_length (ps : List (String × String)) :
    (pairTurns ps).length = 2 * ps.length := by
  induction ps with
  | nil => rfl
  | cons p ps ih => simp [pairTurns, ih]; omega

/-- In the interleaved turn list, position `2i` is the `i`-th user turn and
position `2i + 1` the `i`-th bot turn. -/
theorem pairTurns_getElem (ps : List (String × String)) (i : Nat) (h : i < ps.length) :
    (pairTurns ps)[2 * i]? = some ⟨.user, (ps.get ⟨i, h⟩).1⟩ ∧
    (pairTurns ps)[2 * i + 1]? = some ⟨.bot, (ps.get ⟨i, h⟩).2⟩ := by
  induction ps generalizing i with
  | nil => exact absurd h (Nat.not_lt_zero i)
  | cons p ps ih =>
    cases i with
    | zero => constructor <;> simp [pairTurns]
    | succ j =>
      have hj : j < ps.length := Nat.lt_of_succ_lt_succ h
      have h2 : 2 * (j + 1) = 2 * j + 1 + 1 := by omega
      rw [h2]
      constructor
      · show ((Message.mk .user p.1) :: (Message.mk .bot p.2) :: pairTurns ps)[2 * j + 1 + 1]? = _
        rw [List.getElem?_cons_succ, List.getElem?_cons_succ]
        exact (ih j hj).1
      · show ((Message.mk .user p.1) :: (Message.mk .bot p.2) :: pairTurns ps)[2 * j + 1 + 1 + 1]? = _
        rw [List.getElem?_cons_succ, List.getElem?_cons_succ]
        exact (ih j hj).2

/-! ### The claims -/

/-- C1, counterexample: at a concrete ready state with input "hello", a
gateway failure still produces one `chat_history` insert attempt — with the
user turn and the gateway's fixed error string as the bot turn — so the
failed exchange IS persisted, contrary to the claim that no durable rows
are inserted for it. -/
theorem sendTurn_gateway_failure_persists_cex :
    (handleSend readyState (some "u") (.fail "network error") none).insertAttempts =
      [[⟨"u", .user, "hello"⟩, ⟨"u", .bot, gatewayErrorText⟩]] ∧
    (handleSend readyState (some "u") (.fail "network error") none).insertAttempts ≠ [] := by
  exact ⟨rfl, by decide⟩

/-- C1, amended: for every sendTurn call in which the gateway call fails,
`sendMessageToChat` swallows the failure and resolves with its fixed error
string, so `handleSend` appends that string as a bot turn and attempts to
persist both the user turn and that bot turn, exactly as for a successful
exchange; `handleSend`'s own non-persisting fallback branch is unreachable
for gateway failures. -/
theorem sendTurn_gateway_failure_behavior (st : ChatState) (userId inp e : String)
    (ins : Option String)
    (hinp : strTrim inp ≠ "") (hchat : st.chat ≠ none) (hload : st.isLoading = false) :
    (handleSend { st with input := inp } (some userId) (.fail e) ins).state.messages =
      st.messages ++ [⟨.user, inp⟩, ⟨.bot, gatewayErrorText⟩] ∧
    (handleSend { st with input := inp } (some userId) (.fail e) ins).insertAttempts =
      [[⟨userId, .user, inp⟩, ⟨userId, .bot, gatewayErrorText⟩]] := by
  obtain ⟨ms, inp0, ld, ch⟩ := st
  simp_all [handleSend, sendMessageToChat]

/-- C1, witness for the amended claim at a concrete input. -/
theorem sendTurn_gateway_failure_behavior_witness :
    (handleSend { demoInit with input := "hello" } (some "u") (.fail "network error")
        none).state.messages =
      demoInit.messages ++ [⟨.user, "hello"⟩, ⟨.bot, gatewayErrorText⟩] ∧
    (handleSend { demoInit with input := "hello" } (some "u") (.fail "network error")
        none).insertAttempts =
      [[⟨"u", .user, "hello"⟩, ⟨"u", .bot, gatewayErrorText⟩]] :=
  sendTurn_gateway_failure_behavior demoInit "u" "hello" "network error" none
    (by decide) (by decide) rfl

/-- C2: when the upload succeeds and the metadata insert fails, `saveImage`
issues exactly one compensating `remove` on the just-uploaded path, rejects
with the metadata error, and the result does not depend on the outcome of
the compensating delete (`removeO` is universally quantified and absent from
the right-hand side). -/
theorem saveMedia_insert_failure_compensation
    (userId prompt isoNow m : String) (removeO : StoreOutcome) :
    saveImage userId prompt isoNow .ok (.err m) removeO =
      ⟨.error ("Failed to save image metadata: " ++ m),
       [.storageUpload (userId ++ "/" ++ isoNow ++ ".png"),
        .dbInsert userId prompt (userId ++ "/" ++ isoNow ++ ".png"),
        .storageRemove [userId ++ "/" ++ isoNow ++ ".png"]]⟩ ∧
    (saveImage userId prompt isoNow .ok (.err m) removeO).events.filter isStorageRemove =
      [.storageRemove [userId ++ "/" ++ isoNow ++ ".png"]] := by
  exact ⟨rfl, rfl⟩

/-- C3: a `handleClearHistory` whose durable delete fails leaves the state
(transcript and chat context) unchanged and reports the error; one whose
delete succeeds yields exactly the fixed clearing turn and a fresh context
built by `createChat knowledge` with no seed history. -/
theorem resetHistory_delete_gates_clear (st : ChatState) (userId knowledge : String) :
    (∀ e, handleClearHistory st (some userId) (some e) knowledge = ⟨st, true, true⟩) ∧
    handleClearHistory st (some userId) none knowledge =
      ⟨{ st with messages := [⟨.bot, clearedText⟩],
                 chat := some (createChat knowledge none) }, false, true⟩ ∧
    (createChat knowledge none).history = [] := by
  exact ⟨fun e => rfl, rfl, rfl⟩

/-- C4: `deleteImage` deletes the blob first and the `(userId, storagePath)`
row second; when the row delete fails after the blob delete succeeded, it
rejects with the record error, and the single blob `remove` is not
re-attempted (the event trace holds exactly one storage remove). -/
theorem deleteMedia_row_failure_no_reattempt (userId storagePath m : String) :
    deleteImage userId storagePath .ok (.err m) =
      ⟨.error ("Failed to delete image record: " ++ m),
       [.storageRemove [storagePath], .dbDelete userId storagePath]⟩ ∧
    ((deleteImage userId storagePath .ok (.err m)).events.filter isStorageRemove).length = 1 ∧
    ∀ dbO : StoreOutcome, (deleteImage userId storagePath .ok dbO).events =
      [.storageRemove [storagePath], .dbDelete userId storagePath] := by
  refine ⟨rfl, rfl, fun dbO => ?_⟩
  cases dbO <;> rfl

/-- C5, counterexample: the code's table-missing check is case-sensitive on
"Could not find the table"; an error message that contains the claim's
lowercase substring "could not find the table" (and not "does not exist")
gets the generic notice, not the setup-incomplete notice the claim's
"when (and only when)" requires. -/
theorem initSession_lowercase_substring_cex :
    strIncludes "could not find the table" "could not find the table" = true ∧
    strIncludes "could not find the table" "does not exist" = false ∧
    (initChat "" (.err "could not find the table")).messages =
      [⟨.bot, genericLoadErrorText "could not find the table"⟩] ∧
    (initChat "" (.err "could not find the table")).messages ≠
      [⟨.bot, setupIncompleteText⟩] := by
  exact ⟨by decide, by decide, rfl, by decide⟩

/-- C5, amended: a durable-read error yields exactly one notice turn — the
setup-incomplete notice when (and only when) the message contains
"does not exist" or the capitalised "Could not find the table", otherwise
the generic notice carrying the message — and a successful read with zero
rows yields exactly the greeting turn. -/
theorem initSession_notice_branches (knowledge e : String) :
    (initChat knowledge (.err e)).messages =
      [⟨.bot, if strIncludes e "does not exist" || strIncludes e "Could not find the table"
              then setupIncompleteText
              else genericLoadErrorText e⟩] ∧
    (initChat knowledge (ReadOutcome.ok [])).messages = [⟨.bot, greetingText⟩] := by
  constructor
  · cases h : strIncludes e "does not exist" || strIncludes e "Could not find the table" <;>
      simp [initChat, h]
  · rfl

/-- C6: `getUserImages` on a successful read returns one `StoredImage` per
row in the original row order (the query's descending `created_at` order),
a row whose signed-URL call fails keeping its place with `url = ""`; zero
rows yield the empty list, not an error. -/
theorem listMedia_best_effort_per_row (rows : List ImageRow)
    (signedUrl : String → Option String) :
    getUserImages (.ok rows) signedUrl =
      .ok (rows.map fun image =>
        ⟨image.id, image.prompt, image.storage_path, image.created_at,
         (signedUrl image.storage_path).getD ""⟩) ∧
    getUserImages (.ok []) signedUrl = .ok [] ∧
    ∃ l, getUserImages (.ok rows) signedUrl = .ok l ∧ l.length = rows.length := by
  have hfun : (fun image : ImageRow =>
      match signedUrl image.storage_path with
      | some u => (⟨image.id, image.prompt, image.storage_path, image.created_at, u⟩ : StoredImage)
      | none => ⟨image.id, image.prompt, image.storage_path, image.created_at, ""⟩) =
      fun image : ImageRow =>
        (⟨image.id, image.prompt, image.storage_path, image.created_at,
          (signedUrl image.storage_path).getD ""⟩ : StoredImage) := by
    funext image
    cases signedUrl image.storage_path <;> rfl
  have hmain : getUserImages (.ok rows) signedUrl =
      .ok (rows.map fun image =>
        ⟨image.id, image.prompt, image.storage_path, image.created_at,
         (signedUrl image.storage_path).getD ""⟩) := by
    cases rows with
    | nil => rfl
    | cons a l =>
      show (if (a :: l).isEmpty = true then Except.ok [] else _) = _
      rw [hfun]
      simp
  exact ⟨hmain, rfl, _, hmain, by simp⟩

/-- C7: after N serially issued successful sendTurn calls from an
initialised state with K turns, the transcript is the K initial turns
followed by the N exchanges interleaved user-then-bot: it has exactly
2N + K turns, position K + 2i holding the i-th user turn and K + 2i + 1 the
i-th bot turn. -/
theorem sendTurn_transcript_growth (uid : String) (st : ChatState)
    (ps : List (String × String))
    (hchat : st.chat ≠ none) (hload : st.isLoading = false)
    (hps : ∀ p ∈ ps, strTrim p.1 ≠ "") :
    (runSends uid st ps).messages = st.messages ++ pairTurns ps ∧
    (runSends uid st ps).messages.length = st.messages.length + 2 * ps.length ∧
    ∀ i (h : i < ps.length),
      (runSends uid st ps).messages[st.messages.length + 2 * i]? =
        some ⟨.user, (ps.get ⟨i, h⟩).1⟩ ∧
      (runSends uid st ps).messages[st.messages.length + 2 * i + 1]? =
        some ⟨.bot, (ps.get ⟨i, h⟩).2⟩ := by
  have hmsg := runSends_messages uid ps st hchat hload hps
  refine ⟨hmsg, by rw [hmsg]; simp [pairTurns_length], ?_⟩
  intro i h
  have hp := pairTurns_getElem ps i h
  rw [hmsg]
  constructor
  · rw [List.getElem?_append_right (by omega)]
    have hidx : st.messages.length + 2 * i - st.messages.length = 2 * i := by omega
    rw [hidx]
    exact hp.1
  · rw [List.getElem?_append_right (by omega)]
    have hidx : st.messages.length + 2 * i + 1 - st.messages.length = 2 * i + 1 := by omega
    rw [hidx]
    exact hp.2

/-- C7, witness: one successful send from the freshly initialised session
(K = 1 greeting turn). -/
theorem sendTurn_transcript_growth_witness :
    (runSends "u" demoInit [("hi", "there")]).messages =
      demoInit.messages ++ pairTurns [("hi", "there")] ∧
    (runSends "u" demoInit [("hi", "there")]).messages.length =
      demoInit.messages.length + 2 * [("hi", "there")].length ∧
    ∀ i (h : i < [("hi", "there")].length),
      (runSends "u" demoInit [("hi", "there")]).messages[demoInit.messages.length + 2 * i]? =
        some ⟨.user, ([("hi", "there")].get ⟨i, h⟩).1⟩ ∧
      (runSends "u" demoInit [("hi", "there")]).messages[demoInit.messages.length + 2 * i + 1]? =
        some ⟨.bot, ([("hi", "there")].get ⟨i, h⟩).2⟩ :=
  sendTurn_transcript_growth "u" demoInit [("hi", "there")]
    (by decide) rfl (by decide)

/-- C8: a sendTurn call made while a prior call is outstanding
(`isLoading`), or whose input trims to the empty string, returns without
changing the state and without attempting any insert — it is rejected, not
queued, for every user, gateway outcome and insert outcome. -/
theorem sendTurn_busy_or_blank_rejected (st : ChatState) (uid : Option String)
    (gw : GatewayOutcome) (ins : Option String)
    (h : st.isLoading = true ∨ strTrim st.input = "") :
    handleSend st uid gw ins = ⟨st, []⟩ := by
  cases uid with
  | none => rfl
  | some u =>
    rcases h with h | h
    · simp [handleSend, h]
    · simp [handleSend, h]

/-- C8, witness: the concrete busy state. -/
theorem sendTurn_busy_or_blank_rejected_witness :
    handleSend busyState (some "u") (.ok "r") none = ⟨busyState, []⟩ :=
  sendTurn_busy_or_blank_rejected busyState (some "u") (.ok "r") none (Or.inl rfl)

/-- C9: `sendMessageToChat` never rejects: it resolves with the response
text on success and with the fixed error string on any gateway failure, so
every outcome is an `Except.ok`. -/
theorem sendMessageToChat_never_rejects (t e : String) :
    sendMessageToChat (.ok t) = .ok t ∧
    sendMessageToChat (.fail e) = .ok gatewayErrorText ∧
    ∀ o : GatewayOutcome, ∃ s, sendMessageToChat o = .ok s := by
  refine ⟨rfl, rfl, fun o => ?_⟩
  cases o <;> exact ⟨_, rfl⟩

/-- C10: when the blob delete fails, `deleteImage` rejects with the storage
error and its event trace holds the single storage remove and no row
delete, so the metadata table is untouched. -/
theorem deleteMedia_storage_failure_aborts (userId storagePath m : String)
    (dbO : StoreOutcome) :
    deleteImage userId storagePath (.err m) dbO =
      ⟨.error ("Failed to delete image from storage: " ++ m),
       [.storageRemove [storagePath]]⟩ ∧
    ∀ ev ∈ (deleteImage userId storagePath (.err m) dbO).events, isDbDelete ev = false := by
  refine ⟨rfl, ?_⟩
  intro ev hev
  simp only [deleteImage, List.mem_singleton] at hev
  subst hev
  rfl

end EburonPod
